import Mathlib

/-!
Shallow embedding of the multi-agent travel-planning orchestrator in
`langchain/4_multi_agent.py` (classes `AgentType`, `TravelRequest`,
`AgentResponse`, the four `BaseAgent` subclasses and
`TravelPlanningOrchestrator`), together with proofs of the specified
properties of the hand-off loop.

Modelling conventions:
- The external LLM chain (`self.chain.invoke({"input": ...})`, i.e. the
  TextCompletionService boundary) is a parameter
  `complete : String → String → Except String String` taking the agent's
  system prompt and the input text; `Except.error e` models the Python
  exception with `str(e) = e`.
- `datetime.now().isoformat()` is a parameter `now : String`.
- Python `dict` values are the inductive `DataValue`; a dict literal is an
  association list in insertion order.
- The Python `float` field `budget` is modelled in exact cents (`Int`), so
  the `f"{budget:,.2f}"` rendering is the exact two-decimal grouping.
- `str.lower()` is `strLower`, the character-wise case folding that
  `String.toLower` performs (ASCII, which is what the heuristic's ASCII
  keyword "budget" exercises).
- The `while` loop of `process_travel_request` (cap `max_iterations = 10`)
  is fuel recursion `handoffLoop`, with the loop body's agent invocation
  abstracted as `step : Nat → AgentType → String → Except String
  AgentResponse`; an `Except.error` of `step` models an exception escaping
  the loop body and reaching the method's outer `except`. The real agents
  never throw (each catches internally); they instantiate `step` via
  `svcStep`.
-/

namespace MultiAgent

set_option maxRecDepth 100000

/-- AgentType enumeration from the source: the four agent roles. -/
inductive AgentType where
  | travel_planner
  | budget_analyst
  | activity_specialist
  | booking_coordinator
deriving DecidableEq, Repr

/-- Enum `.value` strings of `AgentType`. -/
def AgentType.value : AgentType → String
  | .travel_planner => "travel_planner"
  | .budget_analyst => "budget_analyst"
  | .activity_specialist => "activity_specialist"
  | .booking_coordinator => "booking_coordinator"

/-- TravelRequest dataclass. `budget` is the Python float in exact cents. -/
structure TravelRequest where
  destination : String
  travel_dates : String
  budget : Int
  travelers : Int
  interests : List String
  accommodation_type : String := "hotel"
deriving DecidableEq, Repr

/-- Values stored in the agents' `data` dicts. -/
inductive DataValue where
  | str (s : String)
  | strList (l : List String)
  | bool (b : Bool)
deriving DecidableEq, Repr

/-- AgentResponse dataclass. `data` is the dict as an association list in
insertion order. -/
structure AgentResponse where
  agent_type : AgentType
  message : String
  data : List (String × DataValue)
  next_agent : Option AgentType := none
  handoff_reason : Option String := none
deriving DecidableEq, Repr

/-- Helper for Python's `pat in s`: does `pat` start the list `s`? -/
def charsStart : List Char → List Char → Bool
  | [], _ => true
  | _ :: _, [] => false
  | p :: ps, c :: cs => p == c && charsStart ps cs

/-- Helper for Python's `pat in s`: does `pat` occur contiguously in `s`? -/
def charsHave (pat : List Char) : List Char → Bool
  | [] => charsStart pat []
  | c :: cs => charsStart pat (c :: cs) || charsHave pat cs

/-- Python's substring test `pat in s` on strings. -/
def strContains (s pat : String) : Bool :=
  charsHave pat.data s.data

/-- Python `str.lower()` as the character-wise case folding
`String.toLower` performs (`Char.toLower` on every character). -/
def strLower (s : String) : String :=
  String.mk (s.data.map Char.toLower)

/-- Inserts a comma after every third character of a reversed digit list,
the reversal of Python's thousands grouping. -/
def groupThousandsRev : List Char → List Char
  | c1 :: c2 :: c3 :: c4 :: rest =>
      c1 :: c2 :: c3 :: ',' :: groupThousandsRev (c4 :: rest)
  | l => l
termination_by l => l.length

/-- Python `f"{x:,.2f}"` on an exact-cents value: sign, comma-grouped whole
part, dot, two fractional digits. -/
def formatMoney (cents : Int) : String :=
  let sign := if cents < 0 then "-" else ""
  let n := cents.natAbs
  let whole := n / 100
  let frac := n % 100
  let fracStr := (if frac < 10 then "0" else "") ++ toString frac
  let wholeStr := String.mk ((groupThousandsRev (toString whole).data.reverse).reverse)
  sign ++ wholeStr ++ "." ++ fracStr

/-- System prompt of `TravelPlannerAgent`. -/
def travel_planner_system_prompt : String :=
  "You are a Senior Travel Planner specializing in creating comprehensive travel itineraries.\n        \n        Your responsibilities:\n        1. Analyze travel requests and validate requirements\n        2. Create high-level travel plans with destinations and timing\n        3. Identify budget constraints and hand off to Budget Analyst\n        4. Coordinate with other agents to build complete itineraries\n        \n        When you receive a travel request, create a preliminary itinerary and determine:\n        - If budget analysis is needed (hand off to budget_analyst)\n        - If activity planning is needed (hand off to activity_specialist)\n        - If booking coordination is needed (hand off to booking_coordinator)\n        \n        Always provide detailed reasoning for your decisions and handoff recommendations.\n        Respond in a professional but friendly tone."

/-- System prompt of `BudgetAnalystAgent`. -/
def budget_analyst_system_prompt : String :=
  "You are a Budget Analysis Specialist for travel planning.\n        \n        Your responsibilities:\n        1. Analyze travel budgets and provide cost breakdowns\n        2. Suggest budget optimizations and alternatives\n        3. Calculate estimated costs for accommodations, flights, activities, and meals\n        4. Provide budget-friendly alternatives when requested\n        \n        When analyzing budgets:\n        - Break down costs by category (flights, accommodation, food, activities, transportation)\n        - Suggest cost-saving tips and alternatives\n        - Flag potential budget issues or overruns\n        - Recommend budget adjustments if necessary\n        \n        After budget analysis, hand off to Activity Specialist for activity planning.\n        Be precise with numbers and provide realistic cost estimates."

/-- System prompt of `ActivitySpecialistAgent`. -/
def activity_specialist_system_prompt : String :=
  "You are an Activity Planning Specialist with expertise in creating memorable travel experiences.\n        \n        Your responsibilities:\n        1. Research and recommend activities based on traveler interests\n        2. Create day-by-day activity schedules\n        3. Consider budget constraints from previous analysis\n        4. Suggest both popular attractions and hidden gems\n        \n        When planning activities:\n        - Match activities to traveler interests and demographics\n        - Consider timing, weather, and seasonal factors\n        - Balance must-see attractions with unique local experiences\n        - Provide alternatives for different energy levels and budgets\n        - Include practical information (opening hours, booking requirements)\n        \n        After activity planning, hand off to Booking Coordinator for reservations.\n        Be creative and focus on creating unique, memorable experiences."

/-- System prompt of `BookingCoordinatorAgent`. -/
def booking_coordinator_system_prompt : String :=
  "You are a Booking Coordination Specialist responsible for finalizing travel arrangements.\n        \n        Your responsibilities:\n        1. Coordinate all bookings based on previous agent recommendations\n        2. Provide booking timeline and priority order\n        3. Suggest booking platforms and methods\n        4. Create final travel checklist and confirmations\n        \n        When coordinating bookings:\n        - Prioritize time-sensitive bookings (flights, popular restaurants)\n        - Provide specific booking instructions and links where possible\n        - Create a timeline for when to make each booking\n        - Include cancellation policies and travel insurance recommendations\n        - Summarize the complete travel plan\n        \n        This is the final step in the travel planning process.\n        Be thorough and provide actionable booking instructions."

/-- System prompt each subclass passes to `BaseAgent.__init__`, by role. -/
def system_prompt_of : AgentType → String
  | AgentType.travel_planner => travel_planner_system_prompt
  | AgentType.budget_analyst => budget_analyst_system_prompt
  | AgentType.activity_specialist => activity_specialist_system_prompt
  | AgentType.booking_coordinator => booking_coordinator_system_prompt

/-- TextCompletionService boundary: system prompt and input to completion
text, or a failure description. -/
abbrev Completion := String → String → Except String String

/-- Python `"budget" in input_data.lower() or "$" in input_data` from
`TravelPlannerAgent.process`. -/
def needs_budget_analysis (input_data : String) : Bool :=
  strContains (strLower input_data) "budget" || strContains input_data "$"

/-- TravelPlannerAgent.process. -/
def plannerProcess (complete : Completion) (now : String) (input_data : String) :
    AgentResponse :=
  match complete travel_planner_system_prompt input_data with
  | Except.ok response =>
    let needs := needs_budget_analysis input_data
    { agent_type := AgentType.travel_planner
      message := "üó∫Ô∏è Travel Planner: " ++ response
      data := [("preliminary_plan", DataValue.str response),
               ("timestamp", DataValue.str now),
               ("analysis_needed", DataValue.strList ["budget", "activities", "booking"])]
      next_agent := some (if needs then AgentType.budget_analyst
                          else AgentType.activity_specialist)
      handoff_reason := some (if needs then "Budget analysis required"
                              else "Activity planning required") }
  | Except.error e =>
    { agent_type := AgentType.travel_planner
      message := "‚ùå Error in travel planning: " ++ e
      data := [("error", DataValue.str e)]
      next_agent := none
      handoff_reason := none }

/-- BudgetAnalystAgent.process. -/
def budgetProcess (complete : Completion) (now : String) (input_data : String) :
    AgentResponse :=
  match complete budget_analyst_system_prompt input_data with
  | Except.ok response =>
    { agent_type := AgentType.budget_analyst
      message := "üí∞ Budget Analyst: " ++ response
      data := [("budget_analysis", DataValue.str response),
               ("cost_categories", DataValue.strList
                 ["flights", "accommodation", "food", "activities", "transportation"]),
               ("budget_status", DataValue.str "analyzed"),
               ("timestamp", DataValue.str now)]
      next_agent := some AgentType.activity_specialist
      handoff_reason := some "Budget analyzed, now planning activities within budget constraints" }
  | Except.error e =>
    { agent_type := AgentType.budget_analyst
      message := "‚ùå Error in budget analysis: " ++ e
      data := [("error", DataValue.str e)]
      next_agent := none
      handoff_reason := none }

/-- ActivitySpecialistAgent.process. -/
def activityProcess (complete : Completion) (now : String) (input_data : String) :
    AgentResponse :=
  match complete activity_specialist_system_prompt input_data with
  | Except.ok response =>
    { agent_type := AgentType.activity_specialist
      message := "üéØ Activity Specialist: " ++ response
      data := [("activity_plan", DataValue.str response),
               ("activity_types", DataValue.strList
                 ["cultural", "adventure", "relaxation", "dining", "shopping"]),
               ("schedule_created", DataValue.bool true),
               ("timestamp", DataValue.str now)]
      next_agent := some AgentType.booking_coordinator
      handoff_reason := some "Activities planned, ready for booking coordination" }
  | Except.error e =>
    { agent_type := AgentType.activity_specialist
      message := "‚ùå Error in activity planning: " ++ e
      data := [("error", DataValue.str e)]
      next_agent := none
      handoff_reason := none }

/-- BookingCoordinatorAgent.process. -/
def bookingProcess (complete : Completion) (now : String) (input_data : String) :
    AgentResponse :=
  match complete booking_coordinator_system_prompt input_data with
  | Except.ok response =>
    { agent_type := AgentType.booking_coordinator
      message := "üìã Booking Coordinator: " ++ response
      data := [("booking_plan", DataValue.str response),
               ("booking_priority", DataValue.strList
                 ["flights", "accommodation", "activities", "restaurants"]),
               ("travel_ready", DataValue.bool true),
               ("timestamp", DataValue.str now)]
      next_agent := none
      handoff_reason := some "Travel planning complete" }
  | Except.error e =>
    { agent_type := AgentType.booking_coordinator
      message := "‚ùå Error in booking coordination: " ++ e
      data := [("error", DataValue.str e)]
      next_agent := none
      handoff_reason := none }

/-- Dispatch of `self.agents[current_agent_type].process`: the orchestrator's
`agents` dict maps each role to its agent. -/
def agentProcess (complete : Completion) (now : String) :
    AgentType → String → AgentResponse
  | AgentType.travel_planner => plannerProcess complete now
  | AgentType.budget_analyst => budgetProcess complete now
  | AgentType.activity_specialist => activityProcess complete now
  | AgentType.booking_coordinator => bookingProcess complete now

/-- Loop cap `max_iterations = 10` of `process_travel_request`. -/
def max_iterations : Nat := 10

/-- TravelPlanningOrchestrator._format_travel_request. -/
def format_travel_request (request : TravelRequest) : String :=
  "\n        Travel Request Details:\n        - Destination: " ++ request.destination ++
  "\n        - Travel Dates: " ++ request.travel_dates ++
  "\n        - Budget: $" ++ formatMoney request.budget ++
  "\n        - Number of Travelers: " ++ toString request.travelers ++
  "\n        - Interests: " ++ String.intercalate ", " request.interests ++
  "\n        - Accommodation Type: " ++ request.accommodation_type ++
  "\n        "

/-- TravelPlanningOrchestrator._build_context: the current input followed by
a digest of the last two prior responses, if any. -/
def build_context (previous_responses : List AgentResponse) (current_input : String) :
    String :=
  match previous_responses with
  | [] => current_input
  | _ :: _ =>
    let recent := previous_responses.drop (previous_responses.length - 2)
    String.intercalate "\n"
      ([current_input, "\nPrevious Agent Analysis:"] ++
       recent.map (fun r => "\n" ++ r.agent_type.value ++ ": " ++ r.message))

/-- Loop body abstraction: invocation index, current role and built context
to the agent's response, or an exception escaping the loop body. -/
abbrev LoopStep := Nat → AgentType → String → Except String AgentResponse

/-- The `while current_agent_type and iteration < max_iterations` hand-off
loop of `process_travel_request`, as fuel recursion with fuel
`max_iterations - iteration`. The second component of the result is the
number of agent invocations the loop performed (the ghost observable the
iteration-cap property speaks about); the Python loop does not return it. -/
def handoffLoop (step : LoopStep) :
    Nat → Nat → AgentType → String → List AgentResponse →
    Except String (List AgentResponse) × Nat
  | 0, _, _, _, responses => (Except.ok responses, 0)
  | fuel + 1, iteration, current, current_input, responses =>
    match step iteration current (build_context responses current_input) with
    | Except.error e => (Except.error e, 1)
    | Except.ok response =>
      match response.next_agent with
      | some nxt =>
          let rest := handoffLoop step fuel (iteration + 1) nxt response.message
            (responses ++ [response])
          (rest.1, rest.2 + 1)
      | none => (Except.ok (responses ++ [response]), 1)

/-- AgentResponse built by the outer `except` clause of
`process_travel_request`. -/
def system_error_response (e : String) : AgentResponse :=
  { agent_type := AgentType.travel_planner
    message := "‚ùå System error: " ++ e
    data := [("error", DataValue.str e)]
    next_agent := none
    handoff_reason := none }

/-- TravelPlanningOrchestrator.process_travel_request over an abstract loop
body: runs the hand-off chain from the travel planner, extends the
conversation history on success, and on an escaped exception returns the
single system-error response with the history untouched. Result: the
returned response list paired with the new conversation history. -/
def process_travel_request (step : LoopStep) (history : List AgentResponse)
    (travel_request : TravelRequest) :
    List AgentResponse × List AgentResponse :=
  match (handoffLoop step max_iterations 0 AgentType.travel_planner
      (format_travel_request travel_request) []).1 with
  | Except.ok responses => (responses, history ++ responses)
  | Except.error e => ([system_error_response e], history)

/-- Loop body of the source program: the selected agent's `process`, which
never raises (each agent catches its own service failure). -/
def svcStep (complete : Completion) (now : String) : LoopStep :=
  fun _ t input => Except.ok (agentProcess complete now t input)

/-- process_travel_request with the four concrete agents over a
TextCompletionService behaviour. -/
def process_travel_request_svc (complete : Completion) (now : String)
    (history : List AgentResponse) (travel_request : TravelRequest) :
    List AgentResponse × List AgentResponse :=
  process_travel_request (svcStep complete now) history travel_request

/-- Shape of `get_conversation_summary`'s returned dict. -/
structure SummaryView where
  total_responses : Nat
  agents_involved : List String
  final_status : String
  timestamp : String
deriving DecidableEq, Repr

/-- TravelPlanningOrchestrator.get_conversation_summary. -/
def get_conversation_summary (history : List AgentResponse) (now : String) :
    SummaryView :=
  { total_responses := history.length
    agents_involved := history.map (fun r => r.agent_type.value)
    final_status := if history.isEmpty then "not_started" else "complete"
    timestamp := now }

/-- Clearing of the conversation history (`conversation_history.clear()` in
`main`, the spec's `reset()`); the agent configuration is not part of the
mutable state it touches. -/
def reset (_history : List AgentResponse) : List AgentResponse := []

/-! Concrete inputs used by witnesses and counterexamples. -/

/-- Completion stub returning the empty string on every call. -/
def emptyCompletion : Completion := fun _ _ => Except.ok ""

/-- Completion stub failing on every call. -/
def failingCompletion : Completion := fun _ _ => Except.error "boom"

/-- Loop body raising on its first invocation. -/
def boomStep : LoopStep := fun _ _ _ => Except.error "boom"

/-- First example request of `main` (budget 4500.00 in cents). -/
def tokyo_request : TravelRequest :=
  { destination := "Tokyo, Japan", travel_dates := "March 15-25, 2025",
    budget := 450000, travelers := 2,
    interests := ["culture", "food", "technology", "temples"],
    accommodation_type := "boutique hotel" }

/-- A request violating the spec constraint `traveler_count ≥ 1`. -/
def invalid_request : TravelRequest :=
  { destination := "Tokyo, Japan", travel_dates := "March 15-25, 2025",
    budget := 450000, travelers := 0, interests := ["food"],
    accommodation_type := "hotel" }

/-! Helper lemmas. -/

/-- Unfolding of one loop round at positive fuel. -/
theorem handoffLoop_cons (step : LoopStep) (fuel it : Nat) (cur : AgentType)
    (inp : String) (acc : List AgentResponse) :
    handoffLoop step (fuel + 1) it cur inp acc =
      match step it cur (build_context acc inp) with
      | Except.error e => (Except.error e, 1)
      | Except.ok response =>
        match response.next_agent with
        | some nxt =>
            let rest := handoffLoop step fuel (it + 1) nxt response.message
              (acc ++ [response])
            (rest.1, rest.2 + 1)
        | none => (Except.ok (acc ++ [response]), 1) := rfl

theorem charsStart_append (pat s t : List Char) (h : charsStart pat s = true) :
    charsStart pat (s ++ t) = true := by
  induction pat generalizing s with
  | nil => simp [charsStart]
  | cons p ps ih =>
    cases s with
    | nil => simp [charsStart] at h
    | cons c cs =>
      simp only [charsStart, Bool.and_eq_true] at h ⊢
      exact ⟨h.1, ih cs h.2⟩

theorem charsHave_nil (s : List Char) : charsHave [] s = true := by
  cases s with
  | nil => rfl
  | cons c cs => simp [charsHave, charsStart]

theorem charsHave_append_left (pat s t : List Char) (h : charsHave pat s = true) :
    charsHave pat (s ++ t) = true := by
  induction s with
  | nil =>
    cases pat with
    | nil => simpa using charsHave_nil t
    | cons p ps => simp [charsHave, charsStart] at h
  | cons c cs ih =>
    simp only [charsHave, Bool.or_eq_true, List.cons_append] at h ⊢
    rcases h with h | h
    · exact Or.inl (charsStart_append pat (c :: cs) t h)
    · exact Or.inr (ih h)

theorem charsHave_append_right (pat s t : List Char) (h : charsHave pat t = true) :
    charsHave pat (s ++ t) = true := by
  induction s with
  | nil => simpa using h
  | cons c cs ih =>
    simp only [charsHave, Bool.or_eq_true, List.cons_append]
    exact Or.inr ih

theorem strContains_append_left (s t pat : String) (h : strContains s pat = true) :
    strContains (s ++ t) pat = true :=
  charsHave_append_left pat.data s.data t.data h

theorem strContains_append_right (s t pat : String) (h : strContains t pat = true) :
    strContains (s ++ t) pat = true :=
  charsHave_append_right pat.data s.data t.data h

/-- The `"- Budget: $"` fragment puts a dollar sign in every formatted
request. -/
theorem format_contains_dollar (req : TravelRequest) :
    strContains (format_travel_request req) "$" = true := by
  unfold format_travel_request
  apply strContains_append_left
  apply strContains_append_left
  apply strContains_append_left
  apply strContains_append_left
  apply strContains_append_left
  apply strContains_append_left
  apply strContains_append_left
  apply strContains_append_left
  apply strContains_append_right
  decide

/-- The planner's heuristic fires on every formatted request. -/
theorem needs_budget_analysis_format (req : TravelRequest) :
    needs_budget_analysis (format_travel_request req) = true := by
  unfold needs_budget_analysis
  rw [format_contains_dollar req]
  simp

theorem str_append_ne_empty (s t : String) (h : s.data ≠ []) : s ++ t ≠ "" := by
  intro heq
  have hd : s.data ++ t.data = ([] : List Char) := congrArg String.data heq
  exact h (List.append_eq_nil.mp hd).1

/-- Every agent reports its own role in its response. -/
theorem agentProcess_agent_type (complete : Completion) (now : String)
    (t : AgentType) (input : String) :
    (agentProcess complete now t input).agent_type = t := by
  cases t <;>
    simp only [agentProcess, plannerProcess, budgetProcess, activityProcess,
      bookingProcess] <;>
    (first
      | (cases complete travel_planner_system_prompt input <;> rfl)
      | (cases complete budget_analyst_system_prompt input <;> rfl)
      | (cases complete activity_specialist_system_prompt input <;> rfl)
      | (cases complete booking_coordinator_system_prompt input <;> rfl))

/-- The invocation counter never exceeds the fuel. -/
theorem handoffLoop_count_le (step : LoopStep) (fuel : Nat) :
    ∀ it cur inp acc, (handoffLoop step fuel it cur inp acc).2 ≤ fuel := by
  induction fuel with
  | zero => intro it cur inp acc; exact Nat.le_refl 0
  | succ n ih =>
    intro it cur inp acc
    rw [handoffLoop_cons]
    cases step it cur (build_context acc inp) with
    | error e => dsimp only; omega
    | ok response =>
      dsimp only
      cases response.next_agent with
      | some nxt =>
        dsimp only
        have := ih (it + 1) nxt response.message (acc ++ [response])
        omega
      | none => dsimp only; omega

/-- On normal termination the result list grows by at most the fuel. -/
theorem handoffLoop_ok_length (step : LoopStep) (fuel : Nat) :
    ∀ it cur inp acc l, (handoffLoop step fuel it cur inp acc).1 = Except.ok l →
      l.length ≤ acc.length + fuel := by
  induction fuel with
  | zero =>
    intro it cur inp acc l h
    cases h
    exact Nat.le_refl _
  | succ n ih =>
    intro it cur inp acc l h
    rw [handoffLoop_cons] at h
    cases hs : step it cur (build_context acc inp) with
    | error e => rw [hs] at h; dsimp only at h; cases h
    | ok response =>
      rw [hs] at h
      dsimp only at h
      cases hn : response.next_agent with
      | some nxt =>
        rw [hn] at h
        dsimp only at h
        have := ih (it + 1) nxt response.message (acc ++ [response]) l h
        simp only [List.length_append, List.length_cons, List.length_nil] at this
        omega
      | none =>
        rw [hn] at h
        dsimp only at h
        cases h
        simp only [List.length_append, List.length_cons, List.length_nil]
        omega

/-- On normal termination the accumulated list is a prefix of the result. -/
theorem handoffLoop_ok_prefix (step : LoopStep) (fuel : Nat) :
    ∀ it cur inp acc l, (handoffLoop step fuel it cur inp acc).1 = Except.ok l →
      acc <+: l := by
  induction fuel with
  | zero =>
    intro it cur inp acc l h
    cases h
    exact List.prefix_refl acc
  | succ n ih =>
    intro it cur inp acc l h
    rw [handoffLoop_cons] at h
    cases hs : step it cur (build_context acc inp) with
    | error e => rw [hs] at h; dsimp only at h; cases h
    | ok response =>
      rw [hs] at h
      dsimp only at h
      cases hn : response.next_agent with
      | some nxt =>
        rw [hn] at h
        dsimp only at h
        exact (List.prefix_append acc [response]).trans
          (ih (it + 1) nxt response.message (acc ++ [response]) l h)
      | none =>
        rw [hn] at h
        dsimp only at h
        cases h
        exact List.prefix_append acc [response]

/-- Only the final response of a normal run may lack a hand-off target. -/
theorem handoffLoop_ok_mid_some (step : LoopStep) (fuel : Nat) :
    ∀ it cur inp acc l, (∀ r ∈ acc, r.next_agent.isSome = true) →
      (handoffLoop step fuel it cur inp acc).1 = Except.ok l →
      ∀ r ∈ l.dropLast, r.next_agent.isSome = true := by
  induction fuel with
  | zero =>
    intro it cur inp acc l hacc h
    cases h
    exact fun r hr => hacc r (List.dropLast_prefix acc |>.subset hr)
  | succ n ih =>
    intro it cur inp acc l hacc h
    rw [handoffLoop_cons] at h
    cases hs : step it cur (build_context acc inp) with
    | error e => rw [hs] at h; dsimp only at h; cases h
    | ok response =>
      rw [hs] at h
      dsimp only at h
      cases hn : response.next_agent with
      | some nxt =>
        rw [hn] at h
        dsimp only at h
        refine ih (it + 1) nxt response.message (acc ++ [response]) l ?_ h
        intro r hr
        rcases List.mem_append.mp hr with hr | hr
        · exact hacc r hr
        · rcases List.mem_singleton.mp hr with rfl
          simp [hn]
      | none =>
        rw [hn] at h
        dsimp only at h
        cases h
        intro r hr
        rw [List.dropLast_concat] at hr
        exact hacc r hr

/-- The concrete agents never raise, so the loop never surfaces an error. -/
theorem handoffLoop_svc_ok (complete : Completion) (now : String) (fuel : Nat) :
    ∀ it cur inp acc, ∃ l,
      (handoffLoop (svcStep complete now) fuel it cur inp acc).1 = Except.ok l := by
  induction fuel with
  | zero => intro it cur inp acc; exact ⟨acc, rfl⟩
  | succ n ih =>
    intro it cur inp acc
    rw [handoffLoop_cons]
    dsimp only [svcStep]
    cases hn : (agentProcess complete now cur (build_context acc inp)).next_agent with
    | some nxt =>
      dsimp only
      exact ih (it + 1) nxt (agentProcess complete now cur (build_context acc inp)).message
        (acc ++ [agentProcess complete now cur (build_context acc inp)])
    | none =>
      exact ⟨_, rfl⟩

/-- A run of the concrete system returns its loop results, appends them to
the history, and starts with the planner's response to the formatted
request. -/
theorem plan_svc_results (complete : Completion) (now : String)
    (history : List AgentResponse) (req : TravelRequest) :
    ∃ l, process_travel_request_svc complete now history req = (l, history ++ l) ∧
      l.head? = some (agentProcess complete now AgentType.travel_planner
        (format_travel_request req)) := by
  obtain ⟨l, hl⟩ := handoffLoop_svc_ok complete now max_iterations 0
    AgentType.travel_planner (format_travel_request req) []
  refine ⟨l, ?_, ?_⟩
  · unfold process_travel_request_svc process_travel_request
    rw [hl]
  · rw [show max_iterations = 9 + 1 from rfl, handoffLoop_cons] at hl
    dsimp only [svcStep, build_context] at hl
    cases hn : (agentProcess complete now AgentType.travel_planner
        (format_travel_request req)).next_agent with
    | some nxt =>
      rw [hn] at hl
      dsimp only at hl
      have hp := handoffLoop_ok_prefix (svcStep complete now) 9 1 nxt _ _ l hl
      rcases hp with ⟨tl, htl⟩
      rw [← htl]
      rfl
    | none =>
      rw [hn] at hl
      dsimp only at hl
      cases hl
      rfl


/-! Claim theorems. -/

/-- C1: on every successful agent invocation the hand-off target follows the
fixed keyword rule: the planner hands off to BUDGET_ANALYST exactly when the
input text contains "budget" case-insensitively or the character "$", and
otherwise to ACTIVITY_SPECIALIST; the budget analyst always hands off to
ACTIVITY_SPECIALIST; the activity specialist always to BOOKING_COORDINATOR;
the booking coordinator reports no successor. -/
theorem C1_keyword_handoff_rule (complete : Completion) (now input : String) :
    (∀ r, complete travel_planner_system_prompt input = Except.ok r →
      (plannerProcess complete now input).next_agent =
        some (if strContains (strLower input) "budget" || strContains input "$"
              then AgentType.budget_analyst else AgentType.activity_specialist)) ∧
    (∀ r, complete budget_analyst_system_prompt input = Except.ok r →
      (budgetProcess complete now input).next_agent =
        some AgentType.activity_specialist) ∧
    (∀ r, complete activity_specialist_system_prompt input = Except.ok r →
      (activityProcess complete now input).next_agent =
        some AgentType.booking_coordinator) ∧
    (∀ r, complete booking_coordinator_system_prompt input = Except.ok r →
      (bookingProcess complete now input).next_agent = none) := by
  refine ⟨fun r h => ?_, fun r h => ?_, fun r h => ?_, fun r h => ?_⟩ <;>
    simp [plannerProcess, budgetProcess, activityProcess, bookingProcess, h,
      needs_budget_analysis]

/-- Witness for C1: a concrete successful planner call on an input that
mentions "budget" hands off to the budget analyst. -/
theorem C1_keyword_handoff_rule_witness :
    (emptyCompletion travel_planner_system_prompt "See Tokyo on a budget" =
      Except.ok "") ∧
    (plannerProcess emptyCompletion "t" "See Tokyo on a budget").next_agent =
      some AgentType.budget_analyst := by
  refine ⟨rfl, ?_⟩
  have h := (C1_keyword_handoff_rule emptyCompletion "t"
    "See Tokyo on a budget").1 "" rfl
  rw [h]
  decide

/-- C2: a failing TextCompletionService call never escapes the agent: the
response has no successor, carries the failure under the "error" key and a
non-empty message; and in a full run a response lacking a successor can only
be the last one, so no further invocation follows a failed one. -/
theorem C2_service_failure_contained (complete : Completion) (now : String)
    (history : List AgentResponse) (req : TravelRequest) :
    (∀ (t : AgentType) (e input : String),
      complete (system_prompt_of t) input = Except.error e →
        (agentProcess complete now t input).next_agent = none ∧
        (agentProcess complete now t input).data.lookup "error" =
          some (DataValue.str e) ∧
        (agentProcess complete now t input).message ≠ "") ∧
    ((process_travel_request_svc complete now history req).1.dropLast.all
      (fun r => r.next_agent.isSome)) = true := by
  constructor
  · intro t e input h
    cases t with
    | travel_planner =>
      simp only [system_prompt_of] at h
      have key : agentProcess complete now AgentType.travel_planner input =
          { agent_type := AgentType.travel_planner,
            message := "‚ùå Error in travel planning: " ++ e,
            data := [("error", DataValue.str e)],
            next_agent := none, handoff_reason := none } := by
        simp [agentProcess, plannerProcess, h]
      rw [key]
      exact ⟨rfl, rfl, str_append_ne_empty _ _ (by decide)⟩
    | budget_analyst =>
      simp only [system_prompt_of] at h
      have key : agentProcess complete now AgentType.budget_analyst input =
          { agent_type := AgentType.budget_analyst,
            message := "‚ùå Error in budget analysis: " ++ e,
            data := [("error", DataValue.str e)],
            next_agent := none, handoff_reason := none } := by
        simp [agentProcess, budgetProcess, h]
      rw [key]
      exact ⟨rfl, rfl, str_append_ne_empty _ _ (by decide)⟩
    | activity_specialist =>
      simp only [system_prompt_of] at h
      have key : agentProcess complete now AgentType.activity_specialist input =
          { agent_type := AgentType.activity_specialist,
            message := "‚ùå Error in activity planning: " ++ e,
            data := [("error", DataValue.str e)],
            next_agent := none, handoff_reason := none } := by
        simp [agentProcess, activityProcess, h]
      rw [key]
      exact ⟨rfl, rfl, str_append_ne_empty _ _ (by decide)⟩
    | booking_coordinator =>
      simp only [system_prompt_of] at h
      have key : agentProcess complete now AgentType.booking_coordinator input =
          { agent_type := AgentType.booking_coordinator,
            message := "‚ùå Error in booking coordination: " ++ e,
            data := [("error", DataValue.str e)],
            next_agent := none, handoff_reason := none } := by
        simp [agentProcess, bookingProcess, h]
      rw [key]
      exact ⟨rfl, rfl, str_append_ne_empty _ _ (by decide)⟩
  · obtain ⟨l, hl⟩ := handoffLoop_svc_ok complete now max_iterations 0
      AgentType.travel_planner (format_travel_request req) []
    have hmid := handoffLoop_ok_mid_some (svcStep complete now) max_iterations 0
      AgentType.travel_planner (format_travel_request req) [] l
      (by intro r hr; cases hr) hl
    have hrw : (process_travel_request_svc complete now history req).1 = l := by
      unfold process_travel_request_svc process_travel_request
      rw [hl]
    rw [hrw, List.all_eq_true]
    intro r hr
    exact hmid r hr

/-- Witness for C2: a concrete failing completion produces the contained
error response. -/
theorem C2_service_failure_contained_witness :
    (agentProcess failingCompletion "t" AgentType.travel_planner "x").next_agent
      = none ∧
    (agentProcess failingCompletion "t" AgentType.travel_planner "x").data.lookup
      "error" = some (DataValue.str "boom") ∧
    (agentProcess failingCompletion "t" AgentType.travel_planner "x").message ≠ "" :=
  (C2_service_failure_contained failingCompletion "t" [] tokyo_request).1
    AgentType.travel_planner "boom" "x" rfl

/-- C3: a single plan call performs at most max_iterations = 10 agent
invocations, whatever the loop body does, and returns at most 10 results. -/
theorem C3_iteration_cap (step : LoopStep) (history : List AgentResponse)
    (req : TravelRequest) :
    (handoffLoop step max_iterations 0 AgentType.travel_planner
        (format_travel_request req) []).2 ≤ max_iterations ∧
    (process_travel_request step history req).1.length ≤ max_iterations := by
  constructor
  · exact handoffLoop_count_le step max_iterations 0 _ _ _
  · unfold process_travel_request
    cases hl : (handoffLoop step max_iterations 0 AgentType.travel_planner
        (format_travel_request req) []).1 with
    | error e => dsimp only; simp [max_iterations]
    | ok responses =>
      dsimp only
      have := handoffLoop_ok_length step max_iterations 0 AgentType.travel_planner
        (format_travel_request req) [] responses hl
      simpa using this

/-- C4: for every request and every service behaviour the plan call returns
a non-empty sequence whose first element has the planner role. -/
theorem C4_plan_total_first_planner (complete : Completion) (now : String)
    (history : List AgentResponse) (req : TravelRequest) :
    (process_travel_request_svc complete now history req).1 ≠ [] ∧
    ((process_travel_request_svc complete now history req).1.head?.map
      (fun r => r.agent_type)) = some AgentType.travel_planner := by
  obtain ⟨l, hpair, hhead⟩ := plan_svc_results complete now history req
  rw [hpair]
  constructor
  · dsimp only
    intro hnil
    rw [hnil] at hhead
    cases hhead
  · dsimp only
    rw [hhead]
    simp [agentProcess_agent_type]

/-- Witness for C4 at a concrete request and service. -/
theorem C4_plan_total_first_planner_witness :
    (process_travel_request_svc emptyCompletion "t" [] tokyo_request).1 ≠ [] ∧
    ((process_travel_request_svc emptyCompletion "t" [] tokyo_request).1.head?.map
      (fun r => r.agent_type)) = some AgentType.travel_planner :=
  C4_plan_total_first_planner emptyCompletion "t" [] tokyo_request

/-- C5 counterexample: the code performs no request validation — a request
with traveler count 0 is processed anyway and produces 4 results, so no
InvalidRequest failure happens before (or instead of) the service calls. -/
theorem C5_counterexample :
    invalid_request.travelers < 1 ∧
    (process_travel_request_svc emptyCompletion "t" [] invalid_request).1.length
      = 4 := by
  exact ⟨by decide, by decide⟩

/-- C5 amended: plan performs no validation; even a request with
traveler_count < 1 or budget < 0 is handed to the planner agent like any
other request and produces results. -/
theorem C5_no_validation (complete : Completion) (now : String)
    (history : List AgentResponse) (req : TravelRequest)
    (hinvalid : req.travelers < 1 ∨ req.budget < 0) :
    (process_travel_request_svc complete now history req).1 ≠ [] ∧
    ((process_travel_request_svc complete now history req).1.head?.map
      (fun r => r.agent_type)) = some AgentType.travel_planner := by
  obtain ⟨l, hpair, hhead⟩ := plan_svc_results complete now history req
  rw [hpair]
  constructor
  · dsimp only
    intro hnil
    rw [hnil] at hhead
    cases hhead
  · dsimp only
    rw [hhead]
    simp [agentProcess_agent_type]

/-- Witness for the amended C5 at the concrete invalid request. -/
theorem C5_no_validation_witness :
    invalid_request.travelers < 1 ∧
    ((process_travel_request_svc emptyCompletion "t" [] invalid_request).1.head?.map
      (fun r => r.agent_type)) = some AgentType.travel_planner :=
  ⟨by decide, (C5_no_validation emptyCompletion "t" [] invalid_request
    (Or.inl (by decide))).2⟩

/-- C6: with a completion service that returns the empty string on every
call, plan returns exactly the four results PLANNER, BUDGET_ANALYST,
ACTIVITY_SPECIALIST, BOOKING_COORDINATOR, each with a non-empty message and
no "error" key. -/
theorem C6_empty_completion_four_results (now : String)
    (history : List AgentResponse) (req : TravelRequest) :
    ((process_travel_request_svc emptyCompletion now history req).1.map
      (fun r => r.agent_type)) =
      [AgentType.travel_planner, AgentType.budget_analyst,
       AgentType.activity_specialist, AgentType.booking_coordinator] ∧
    ((process_travel_request_svc emptyCompletion now history req).1.all
      (fun r => !(r.message == "") && (r.data.lookup "error" == none))) = true := by
  have h := needs_budget_analysis_format req
  constructor <;>
    simp [process_travel_request_svc, process_travel_request, max_iterations,
      handoffLoop, svcStep, agentProcess, plannerProcess, budgetProcess,
      activityProcess, bookingProcess, emptyCompletion, build_context, h,
      List.lookup]

/-- C7 counterexample: after two plan calls without a reset the summary's
agents_involved holds every invoked role with repetitions — it is not a
duplicate-free set of distinct roles. -/
theorem C7_counterexample :
    ¬ (get_conversation_summary
        (process_travel_request_svc emptyCompletion "t"
          (process_travel_request_svc emptyCompletion "t" [] tokyo_request).2
          tokyo_request).2 "t").agents_involved.Nodup := by
  decide

/-- C7 amended: the summary is a derived read-only view giving the total
count, the list of roles of all accumulated results in invocation order
(with repetitions), and a status that is "complete" exactly when the
accumulated list is non-empty. -/
theorem C7_summary_is_derived_view (history : List AgentResponse) (now : String) :
    (get_conversation_summary history now).total_responses = history.length ∧
    (get_conversation_summary history now).agents_involved =
      history.map (fun r => r.agent_type.value) ∧
    ((get_conversation_summary history now).final_status = "complete" ↔
      history ≠ []) := by
  refine ⟨rfl, rfl, ?_⟩
  cases history <;> simp [get_conversation_summary]

/-- C8: no agent ever hands off to itself: the successor named in a response
differs from the responding role, on success and on failure alike. -/
theorem C8_no_self_handoff (complete : Completion) (now : String)
    (t : AgentType) (input : String) :
    (agentProcess complete now t input).next_agent ≠
      some (agentProcess complete now t input).agent_type := by
  rw [agentProcess_agent_type]
  cases t with
  | travel_planner =>
    dsimp only [agentProcess, plannerProcess]
    cases complete travel_planner_system_prompt input with
    | ok r => dsimp only; split <;> simp
    | error e => simp
  | budget_analyst =>
    dsimp only [agentProcess, budgetProcess]
    cases complete budget_analyst_system_prompt input <;> simp
  | activity_specialist =>
    dsimp only [agentProcess, activityProcess]
    cases complete activity_specialist_system_prompt input <;> simp
  | booking_coordinator =>
    dsimp only [agentProcess, bookingProcess]
    cases complete booking_coordinator_system_prompt input <;> simp

/-- Witness for C8 at a concrete agent invocation. -/
theorem C8_no_self_handoff_witness :
    (agentProcess emptyCompletion "t" AgentType.budget_analyst "x").next_agent ≠
      some (agentProcess emptyCompletion "t" AgentType.budget_analyst "x").agent_type :=
  C8_no_self_handoff emptyCompletion "t" AgentType.budget_analyst "x"

/-- C9: reset clears the history and nothing else the plan call reads: a
plan call after reset equals a plan call on a fresh orchestrator, its
returned results do not depend on the prior history, and the history
afterwards holds exactly this session's results. -/
theorem C9_reset_then_plan_fresh (complete : Completion) (now : String)
    (history : List AgentResponse) (req : TravelRequest) :
    reset history = [] ∧
    process_travel_request_svc complete now (reset history) req =
      process_travel_request_svc complete now [] req ∧
    (process_travel_request_svc complete now (reset history) req).1 =
      (process_travel_request_svc complete now history req).1 ∧
    (process_travel_request_svc complete now (reset history) req).2 =
      (process_travel_request_svc complete now (reset history) req).1 := by
  refine ⟨rfl, rfl, ?_, ?_⟩
  · unfold process_travel_request_svc process_travel_request
    cases (handoffLoop (svcStep complete now) max_iterations 0
      AgentType.travel_planner (format_travel_request req) []).1 <;> rfl
  · obtain ⟨l, hpair, hhead⟩ := plan_svc_results complete now [] req
    show (process_travel_request_svc complete now [] req).2 =
      (process_travel_request_svc complete now [] req).1
    rw [hpair]
    simp

/-- C10: an exception escaping the hand-off loop itself makes plan return
the single system-error result, attributed to the planner role whichever
iteration failed, with the failure under the "error" key; every earlier
result of that call is discarded and the stored history is unchanged. -/
theorem C10_loop_escape_single_error (step : LoopStep)
    (history : List AgentResponse) (req : TravelRequest) (e : String)
    (h : (handoffLoop step max_iterations 0 AgentType.travel_planner
        (format_travel_request req) []).1 = Except.error e) :
    process_travel_request step history req =
      ([system_error_response e], history) ∧
    (system_error_response e).agent_type = AgentType.travel_planner ∧
    (system_error_response e).data.lookup "error" = some (DataValue.str e) ∧
    (system_error_response e).next_agent = none := by
  refine ⟨?_, rfl, rfl, rfl⟩
  unfold process_travel_request
  rw [h]

/-- Witness for C10: a loop body that raises at once yields the single
system-error result and leaves the history empty. -/
theorem C10_loop_escape_single_error_witness :
    ((handoffLoop boomStep max_iterations 0 AgentType.travel_planner
        (format_travel_request tokyo_request) []).1 = Except.error "boom") ∧
    process_travel_request boomStep [] tokyo_request =
      ([system_error_response "boom"], []) :=
  ⟨rfl, (C10_loop_escape_single_error boomStep [] tokyo_request "boom" rfl).1⟩

end MultiAgent
